import Mathlib

/-!
Shallow embedding of src/ThreadSafeQueue.hpp.

The C++ class holds two pieces of shared state, protected by a single mutex:
a std::queue m_queue (front of the queue is the head of our list) and an
atomic flag m_joined (set by stop and by join, never cleared).  We model a
quiescent queue instance as a structure carrying both fields, and each
member function as an explicit state-passing function.

Blocking is modelled for the sequential (no concurrent mutator) semantics:
get returns an Option of its result-and-post-state, where the outer none
means the call parks on the condition variable with a wait predicate that
cannot become true without another thread intervening; join returns its
post-state together with a Bool that is true when the call returns without
waiting and false when it parks the caller the same way.  In both functions
the wait predicate is embedded verbatim from the source lambdas.
-/

set_option autoImplicit false

structure ThreadSafeQueue (T : Type) where
  m_queue : List T
  m_joined : Bool
deriving Repr, DecidableEq

namespace ThreadSafeQueue

variable {T : Type}

/-- The freshly constructed queue: std::queue is empty and the atomic_bool
m_joined is initialised to false (line 176 of the header). -/
def init : ThreadSafeQueue T :=
  { m_queue := [], m_joined := false }

/-- The wait predicate of get (the lambda on lines 58-60):
not m_queue.empty() or (m_joined and m_queue.empty()). -/
def wakePred (s : ThreadSafeQueue T) : Bool :=
  !s.m_queue.isEmpty || (s.m_joined && s.m_queue.isEmpty)

/-- get (lines 44-77).  Fast path: if m_joined and the queue size is 0,
return a failed optional at once.  Otherwise wait on the condition variable
for wakePred; if the predicate cannot hold now (queue empty, not joined)
the call parks, which the outer none records.  On wake, re-check joined and
empty, else move the front element out and pop it.  The inner nil branch is
unreachable: wakePred together with the failed re-check forces a non-empty
queue. -/
def get (s : ThreadSafeQueue T) : Option (Option T × ThreadSafeQueue T) :=
  if s.m_joined ∧ s.m_queue.length = 0 then
    some (none, s)
  else if wakePred s then
    if s.m_joined ∧ s.m_queue.length = 0 then
      some (none, s)
    else
      match s.m_queue with
      | [] => some (none, s)
      | x :: rest => some (some x, { s with m_queue := rest })
  else
    none

/-- push (lines 84-97): if m_joined, return false without touching the
queue; otherwise append the value at the back and return true. -/
def push (v : T) (s : ThreadSafeQueue T) : Bool × ThreadSafeQueue T :=
  if s.m_joined then
    (false, s)
  else
    (true, { s with m_queue := s.m_queue ++ [v] })

/-- empty (lines 102-106): reports m_queue.empty() under the lock; the
const member leaves the state as it was. -/
def empty (s : ThreadSafeQueue T) : Bool × ThreadSafeQueue T :=
  (s.m_queue.isEmpty, s)

/-- complete (lines 112-115): m_joined and m_queue.empty(), state
untouched. -/
def complete (s : ThreadSafeQueue T) : Bool × ThreadSafeQueue T :=
  (s.m_joined && s.m_queue.isEmpty, s)

/-- stop (lines 124-132): set m_joined to true and notify all waiters. -/
def stop (s : ThreadSafeQueue T) : ThreadSafeQueue T :=
  { s with m_joined := true }

/-- size (lines 163-167): the element count under the lock, state
untouched. -/
def size (s : ThreadSafeQueue T) : Nat × ThreadSafeQueue T :=
  (s.m_queue.length, s)

/-- join (lines 139-155): set m_joined to true; if the queue size is 0
return at once, else wait for the predicate m_joined and m_queue.empty().
The first component is the state the call leaves behind (visible to other
threads even while the caller waits); the second is true exactly when the
call returns without waiting. -/
def join (s : ThreadSafeQueue T) : ThreadSafeQueue T × Bool :=
  let s' : ThreadSafeQueue T := { s with m_joined := true }
  if s'.m_queue.length = 0 then
    (s', true)
  else
    (s', false)

/-- Run a sequence of push calls left to right, keeping only the states. -/
def pushAll : List T → ThreadSafeQueue T → ThreadSafeQueue T
  | [], s => s
  | v :: vs, s => pushAll vs (push v s).2

/-- Perform up to the given number of get calls, collecting the values
returned; stop early if a call returns the empty sentinel or parks. -/
def drain : Nat → ThreadSafeQueue T → List T × ThreadSafeQueue T
  | 0, s => ([], s)
  | n + 1, s =>
    match get s with
    | some (some x, s') =>
      let r := drain n s'
      (x :: r.1, r.2)
    | some (none, s') => ([], s')
    | none => ([], s)

end ThreadSafeQueue

/-- C1: get returns the empty sentinel and leaves the state unchanged when
the queue is closed and empty, and pops and returns the front element
whenever the queue is non-empty. -/
theorem get_contract {T : Type} (s : ThreadSafeQueue T) :
    (s.m_joined = true → s.m_queue = [] → ThreadSafeQueue.get s = some (none, s)) ∧
    (∀ x xs, s.m_queue = x :: xs →
      ThreadSafeQueue.get s = some (some x, { s with m_queue := xs })) := by
  obtain ⟨q, j⟩ := s
  constructor
  · rintro rfl rfl
    simp [ThreadSafeQueue.get]
  · rintro x xs rfl
    cases j <;> simp [ThreadSafeQueue.get, ThreadSafeQueue.wakePred]

/-- C1 witness: the contract evaluated on the closed empty queue and on an
open two-element queue over Nat. -/
theorem get_contract_witness :
    ThreadSafeQueue.get ({ m_queue := [], m_joined := true } : ThreadSafeQueue Nat) =
      some (none, { m_queue := [], m_joined := true }) ∧
    ThreadSafeQueue.get ({ m_queue := [5, 7], m_joined := false } : ThreadSafeQueue Nat) =
      some (some 5, { m_queue := [7], m_joined := false }) :=
  ⟨(get_contract _).1 rfl rfl, (get_contract _).2 5 [7] rfl⟩

/-- C2: once the queue is closed, push returns false and leaves the state
(items and flag alike) exactly unchanged. -/
theorem push_after_close {T : Type} (s : ThreadSafeQueue T) (v : T)
    (h : s.m_joined = true) : ThreadSafeQueue.push v s = (false, s) := by
  simp [ThreadSafeQueue.push, h]

/-- C2 witness: a rejected push on a closed queue holding one item. -/
theorem push_after_close_witness :
    ThreadSafeQueue.push 9 ({ m_queue := [4], m_joined := true } : ThreadSafeQueue Nat) =
      (false, { m_queue := [4], m_joined := true }) :=
  push_after_close _ 9 rfl

/-- Pushing onto an open queue appends at the back and keeps it open. -/
theorem ThreadSafeQueue.pushAll_open {T : Type} (vs : List T) (q : List T) :
    pushAll vs { m_queue := q, m_joined := false } =
      { m_queue := q ++ vs, m_joined := false } := by
  induction vs generalizing q with
  | nil => simp [pushAll]
  | cons v vs ih => simp [pushAll, push, ih]

/-- Draining as many get calls as there are items returns them front to
back and leaves the flag alone. -/
theorem ThreadSafeQueue.drain_all {T : Type} (vs : List T) (j : Bool) :
    drain vs.length { m_queue := vs, m_joined := j } =
      (vs, { m_queue := [], m_joined := j }) := by
  induction vs with
  | nil => simp [drain]
  | cons x xs ih =>
    have hget : get { m_queue := x :: xs, m_joined := j } =
        some (some x, { m_queue := xs, m_joined := j }) := by
      cases j <;> simp [get, wakePred]
    simp [drain, hget, ih]

/-- C3: FIFO order.  Pushing a sequence of values into a fresh open queue
and then getting them back yields exactly the pushed values in order, and
moreover get only ever removes the front element while push only ever
appends at the back. -/
theorem fifo_order {T : Type} (vs : List T) :
    ThreadSafeQueue.drain vs.length (ThreadSafeQueue.pushAll vs ThreadSafeQueue.init) =
      (vs, ThreadSafeQueue.init) ∧
    (∀ (s : ThreadSafeQueue T) (r : Option T) (s' : ThreadSafeQueue T),
      ThreadSafeQueue.get s = some (r, s') →
        s'.m_queue = s.m_queue ∨ s'.m_queue = s.m_queue.tail) ∧
    (∀ (v : T) (s : ThreadSafeQueue T),
      ((ThreadSafeQueue.push v s).2).m_queue = s.m_queue ∨
      ((ThreadSafeQueue.push v s).2).m_queue = s.m_queue ++ [v]) := by
  refine ⟨?_, ?_, ?_⟩
  · rw [ThreadSafeQueue.init, ThreadSafeQueue.pushAll_open]
    simpa using ThreadSafeQueue.drain_all vs false
  · rintro ⟨q, j⟩ r s' h
    cases j <;> cases q <;>
      simp_all [ThreadSafeQueue.get, ThreadSafeQueue.wakePred] <;>
      simp [h.2.symm]
  · rintro v ⟨q, j⟩
    cases j <;> simp [ThreadSafeQueue.push]

/-- C3 witness: two values round-trip in order through a fresh queue, and a
concrete get removes exactly the front element. -/
theorem fifo_order_witness :
    ThreadSafeQueue.drain 2 (ThreadSafeQueue.pushAll [5, 7] (ThreadSafeQueue.init : ThreadSafeQueue Nat)) =
      ([5, 7], ThreadSafeQueue.init) ∧
    (({ m_queue := [7], m_joined := false } : ThreadSafeQueue Nat).m_queue =
        ({ m_queue := [5, 7], m_joined := false } : ThreadSafeQueue Nat).m_queue ∨
      ({ m_queue := [7], m_joined := false } : ThreadSafeQueue Nat).m_queue =
        ({ m_queue := [5, 7], m_joined := false } : ThreadSafeQueue Nat).m_queue.tail) :=
  ⟨(fifo_order [5, 7]).1,
    (fifo_order ([] : List Nat)).2.1 { m_queue := [5, 7], m_joined := false }
      (some 5) { m_queue := [7], m_joined := false } (by decide)⟩

/-- C4: the complete state (closed with no items) is terminal and exactly
stable: every operation returns at once and leaves the state unchanged, so
complete keeps answering true forever. -/
theorem complete_terminal {T : Type} (s : ThreadSafeQueue T)
    (h1 : s.m_joined = true) (h2 : s.m_queue = []) :
    ThreadSafeQueue.get s = some (none, s) ∧
    (∀ v : T, ThreadSafeQueue.push v s = (false, s)) ∧
    ThreadSafeQueue.empty s = (true, s) ∧
    ThreadSafeQueue.size s = (0, s) ∧
    ThreadSafeQueue.complete s = (true, s) ∧
    ThreadSafeQueue.stop s = s ∧
    ThreadSafeQueue.join s = (s, true) := by
  obtain ⟨q, j⟩ := s
  simp only at h1 h2
  subst h1; subst h2
  refine ⟨?_, ?_, ?_, ?_, ?_, ?_, ?_⟩ <;>
    simp [ThreadSafeQueue.get, ThreadSafeQueue.push, ThreadSafeQueue.empty,
      ThreadSafeQueue.size, ThreadSafeQueue.complete, ThreadSafeQueue.stop,
      ThreadSafeQueue.join]

/-- C4 witness: the terminal contract evaluated on the complete queue over
Nat, with a concrete rejected push. -/
theorem complete_terminal_witness :
    ThreadSafeQueue.get ({ m_queue := [], m_joined := true } : ThreadSafeQueue Nat) =
      some (none, { m_queue := [], m_joined := true }) ∧
    ThreadSafeQueue.push 3 ({ m_queue := [], m_joined := true } : ThreadSafeQueue Nat) =
      (false, { m_queue := [], m_joined := true }) ∧
    ThreadSafeQueue.stop ({ m_queue := [], m_joined := true } : ThreadSafeQueue Nat) =
      { m_queue := [], m_joined := true } :=
  have h := complete_terminal ({ m_queue := [], m_joined := true } : ThreadSafeQueue Nat) rfl rfl
  ⟨h.1, h.2.1 3, h.2.2.2.2.2.1⟩

/-- C5: the closed flag is monotonic: whenever m_joined is true before an
operation, it is still true afterwards, for every operation of the class. -/
theorem closed_monotone {T : Type} (s : ThreadSafeQueue T)
    (h : s.m_joined = true) :
    (∀ (r : Option T) (s' : ThreadSafeQueue T),
      ThreadSafeQueue.get s = some (r, s') → s'.m_joined = true) ∧
    (∀ v : T, ((ThreadSafeQueue.push v s).2).m_joined = true) ∧
    ((ThreadSafeQueue.empty s).2).m_joined = true ∧
    ((ThreadSafeQueue.size s).2).m_joined = true ∧
    ((ThreadSafeQueue.complete s).2).m_joined = true ∧
    (ThreadSafeQueue.stop s).m_joined = true ∧
    ((ThreadSafeQueue.join s).1).m_joined = true := by
  obtain ⟨q, j⟩ := s
  simp only at h
  subst h
  refine ⟨?_, ?_, ?_, ?_, ?_, ?_, ?_⟩ <;>
    cases q <;>
      simp [ThreadSafeQueue.get, ThreadSafeQueue.wakePred, ThreadSafeQueue.push,
        ThreadSafeQueue.empty, ThreadSafeQueue.size, ThreadSafeQueue.complete,
        ThreadSafeQueue.stop, ThreadSafeQueue.join]

/-- C5 witness: the flag stays set across a concrete get (which pops the
front of a closed one-element queue) and a concrete rejected push. -/
theorem closed_monotone_witness :
    ({ m_queue := [], m_joined := true } : ThreadSafeQueue Nat).m_joined = true ∧
    ((ThreadSafeQueue.push 2 ({ m_queue := [8], m_joined := true } : ThreadSafeQueue Nat)).2).m_joined = true :=
  ⟨(closed_monotone ({ m_queue := [8], m_joined := true } : ThreadSafeQueue Nat) rfl).1
      (some 8) { m_queue := [], m_joined := true } (by decide),
    (closed_monotone ({ m_queue := [8], m_joined := true } : ThreadSafeQueue Nat) rfl).2.1 2⟩

/-- C6: join sets the closed flag (so any later push is rejected, like
stop), returns at once exactly when the queue is already empty, and only
returns when the closed-and-empty predicate holds. -/
theorem join_contract {T : Type} (s : ThreadSafeQueue T) :
    ((ThreadSafeQueue.join s).1).m_joined = true ∧
    (∀ v : T, ThreadSafeQueue.push v (ThreadSafeQueue.join s).1 =
      (false, (ThreadSafeQueue.join s).1)) ∧
    (s.m_queue = [] →
      ThreadSafeQueue.join s = ({ s with m_joined := true }, true)) ∧
    ((ThreadSafeQueue.join s).2 = true ↔
      (ThreadSafeQueue.complete (ThreadSafeQueue.join s).1).1 = true) := by
  obtain ⟨q, j⟩ := s
  cases q <;>
    simp [ThreadSafeQueue.join, ThreadSafeQueue.push, ThreadSafeQueue.complete]

/-- C6 witness: join on an empty open queue returns at once with the flag
set, and a push afterwards is rejected. -/
theorem join_contract_witness :
    ThreadSafeQueue.join ({ m_queue := [], m_joined := false } : ThreadSafeQueue Nat) =
      ({ m_queue := [], m_joined := true }, true) ∧
    ThreadSafeQueue.push 6
        (ThreadSafeQueue.join ({ m_queue := [], m_joined := false } : ThreadSafeQueue Nat)).1 =
      (false, (ThreadSafeQueue.join ({ m_queue := [], m_joined := false } : ThreadSafeQueue Nat)).1) :=
  ⟨(join_contract ({ m_queue := [], m_joined := false } : ThreadSafeQueue Nat)).2.2.1 rfl,
    (join_contract ({ m_queue := [], m_joined := false } : ThreadSafeQueue Nat)).2.1 6⟩

/-- C7: shutdown is idempotent: after a first stop or join, any further
stop or join (in any combination, including from the complete state)
leaves the observable state, items and flag together, exactly as it was. -/
theorem shutdown_idempotent {T : Type} (s : ThreadSafeQueue T) :
    ThreadSafeQueue.stop (ThreadSafeQueue.stop s) = ThreadSafeQueue.stop s ∧
    (ThreadSafeQueue.join (ThreadSafeQueue.stop s)).1 = ThreadSafeQueue.stop s ∧
    ThreadSafeQueue.stop ((ThreadSafeQueue.join s).1) = (ThreadSafeQueue.join s).1 ∧
    (ThreadSafeQueue.join ((ThreadSafeQueue.join s).1)).1 = (ThreadSafeQueue.join s).1 := by
  obtain ⟨q, j⟩ := s
  cases q <;> simp [ThreadSafeQueue.stop, ThreadSafeQueue.join]

/-- C8: under quiescence the observers agree: size is zero exactly when
empty reports true, and on a closed queue both hold exactly when complete
reports true. -/
theorem observers_consistent {T : Type} (s : ThreadSafeQueue T) :
    ((ThreadSafeQueue.size s).1 = 0 ↔ (ThreadSafeQueue.empty s).1 = true) ∧
    (s.m_joined = true →
      (((ThreadSafeQueue.size s).1 = 0 ∧ (ThreadSafeQueue.empty s).1 = true) ↔
        (ThreadSafeQueue.complete s).1 = true)) := by
  obtain ⟨q, j⟩ := s
  cases q <;>
    simp [ThreadSafeQueue.size, ThreadSafeQueue.empty, ThreadSafeQueue.complete]

/-- C8 witness: the equivalences evaluated on the closed empty queue. -/
theorem observers_consistent_witness :
    ((ThreadSafeQueue.size ({ m_queue := [], m_joined := true } : ThreadSafeQueue Nat)).1 = 0 ∧
      (ThreadSafeQueue.empty ({ m_queue := [], m_joined := true } : ThreadSafeQueue Nat)).1 = true) ↔
    (ThreadSafeQueue.complete ({ m_queue := [], m_joined := true } : ThreadSafeQueue Nat)).1 = true :=
  (observers_consistent ({ m_queue := [], m_joined := true } : ThreadSafeQueue Nat)).2 rfl

/-- C9: a get call proceeds (rather than parking on the condition
variable) exactly when the queue is non-empty or closed-and-empty; in
particular a get parked on an empty open queue is released with the empty
sentinel once stop has run. -/
theorem get_wake_condition {T : Type} (s : ThreadSafeQueue T) :
    ((ThreadSafeQueue.get s).isSome = true ↔
      (s.m_queue ≠ [] ∨ (s.m_joined = true ∧ s.m_queue = []))) ∧
    (s.m_joined = false → s.m_queue = [] →
      (ThreadSafeQueue.get s = none ∧
        ThreadSafeQueue.get (ThreadSafeQueue.stop s) =
          some (none, ThreadSafeQueue.stop s))) := by
  obtain ⟨q, j⟩ := s
  cases j <;> cases q <;>
    simp [ThreadSafeQueue.get, ThreadSafeQueue.wakePred, ThreadSafeQueue.stop]

/-- C9 witness: on the fresh empty queue a get parks, and after stop the
same get is released at once with the empty sentinel. -/
theorem get_wake_condition_witness :
    ThreadSafeQueue.get ({ m_queue := [], m_joined := false } : ThreadSafeQueue Nat) = none ∧
    ThreadSafeQueue.get
        (ThreadSafeQueue.stop ({ m_queue := [], m_joined := false } : ThreadSafeQueue Nat)) =
      some (none, ThreadSafeQueue.stop ({ m_queue := [], m_joined := false } : ThreadSafeQueue Nat)) :=
  (get_wake_condition ({ m_queue := [], m_joined := false } : ThreadSafeQueue Nat)).2 rfl rfl

/-- C10: the observers empty, size and complete are pure: they return the
state they were given, items and flag untouched. -/
theorem observers_pure {T : Type} (s : ThreadSafeQueue T) :
    (ThreadSafeQueue.empty s).2 = s ∧
    (ThreadSafeQueue.size s).2 = s ∧
    (ThreadSafeQueue.complete s).2 = s :=
  ⟨rfl, rfl, rfl⟩
